import Mathlib

/-!
Shallow embedding of the metric-sampling and utilization-calculation core of
dynamic-dynamodb: the modules `dynamic_dynamodb/statistics/table.py` and
`dynamic_dynamodb/statistics/gsi.py`.

Modelling conventions:
* CloudWatch float values (the `Sum` statistic) are modelled as exact
  rationals (`ℚ`); `math.ceil` on a float becomes `Int.ceil` on `ℚ`, and
  Python `int()` truncation toward zero becomes `pyInt`.
* The external collaborators (the CloudWatch connection and the DynamoDB
  capacity lookup in `dynamic_dynamodb.aws.dynamodb`) are passed in as
  function arguments: a metrics provider mapping a concrete query to either
  a list of data points or a boto-level error, and capacity providers
  mapping a table (and GSI) name to either an integer or an error.
* Python exceptions are modelled with `Except Err`: `BotoServerError` and
  `JSONResponseError` from boto, plus Python's `ZeroDivisionError`, which
  the source can raise when a float division has divisor `0.0` (it is not
  caught by any `except` clause in these modules).
* Side effects (the clamp warning, the error/info log lines, the remote
  requests that are issued) are recorded in an event trace, so that
  ordering and emission claims can be stated.
* Times are integers counting minutes: `now` stands for
  `datetime.utcnow()`, and `timedelta(minutes=m)` is subtraction of `m`.
-/

namespace DynamicDynamodb

/-- Error conditions that the source can raise: the two boto exception
classes named in `table.py`/`gsi.py`, plus Python's arithmetic
division-by-zero fault. -/
inductive Err where
  | botoServerError
  | jsonResponseError
  | zeroDivisionError
deriving Repr, DecidableEq

/-- One CloudWatch data point; only the `Sum` statistic is requested and
read by the source (`metrics[0]['Sum']`). -/
structure MetricPoint where
  sum : ℚ
deriving Repr, DecidableEq

/-- The argument record of the `get_metric_statistics` call issued by
`__get_aws_metric` (both modules): period, window, metric name, namespace,
statistics, dimensions and unit, exactly the keyword arguments of the
source call. `start_time`/`end_time` are in minutes. -/
structure MetricQuery where
  period : ℕ
  start_time : ℤ
  end_time : ℤ
  metric_name : String
  nspace : String
  statistics : List String
  dimensions : List (String × String)
  unit : String
deriving Repr, DecidableEq

/-- Observable side effects of one call, in order: the clamp warning
(`logger.warning` in table.py), an issued CloudWatch request, an issued
provisioned-capacity request (`dynamodb.get_provisioned_*`), an
error-level log line, an info-level log line. -/
inductive Event where
  | warnLookbackClamped (table_name : String)
  | metricRequest (q : MetricQuery)
  | capacityRequest (table_name : String) (gsi_name : Option String) (is_read : Bool)
  | errorLog
  | infoLog
deriving Repr, DecidableEq

/-- Python `int()` applied to a real-valued (here rational) quantity:
truncation toward zero. -/
def pyInt (q : ℚ) : ℤ := if q < 0 then ⌈q⌉ else ⌊q⌋

/-- Outcome of a retried remote call: the final result, the concatenated
event trace of all attempts, the number of attempts made, and the list of
backoff sleeps (in milliseconds) taken between attempts. -/
structure RunResult (α : Type) where
  result : Except Err α
  events : List Event
  attempts : ℕ
  sleeps : List ℕ
deriving Repr

/-- Modelled from the spec: the per-wait backoff of the retry decorator
configured with `wait_exponential_multiplier=1000` and
`wait_exponential_max=10000` (the `retrying` library itself is not part of
this repository). Waits start at the multiplier, double after each failed
attempt, and are capped at the maximum; `i` is the 0-based index of the
attempt that just failed. -/
def sleepMs (multiplier maxWait i : ℕ) : ℕ := min (multiplier * 2 ^ i) maxWait

/-- Modelled from the spec: the engine of the `retry` decorator (the
`retrying` library is not part of this repository). Attempt the call; on
success return its value; on error, if attempts remain, sleep the backoff
wait and retry, otherwise propagate the last error. `i` is the 0-based
attempt index and `r` the number of attempts remaining; each attempt's
event trace is kept. -/
def retryRun {α : Type} (call : ℕ → Except Err α × List Event)
    (multiplier maxWait : ℕ) : ℕ → ℕ → RunResult α
  | _, 0 => ⟨Except.error Err.botoServerError, [], 0, []⟩
  | i, r + 1 =>
    match (call i).1 with
    | Except.ok a => ⟨Except.ok a, (call i).2, 1, []⟩
    | Except.error e =>
      match r with
      | 0 => ⟨Except.error e, (call i).2, 1, []⟩
      | r' + 1 =>
        let rest := retryRun call multiplier maxWait (i + 1) (r' + 1)
        ⟨rest.result, (call i).2 ++ rest.events, rest.attempts + 1,
          sleepMs multiplier maxWait i :: rest.sleeps⟩

/-- The external CloudWatch collaborator: maps an issued query to either a
list of data points (possibly empty) or a boto-level error. -/
abbrev MetricsProvider := MetricQuery → Except Err (List MetricPoint)

/-- The query built by `__get_aws_metric` in table.py (lines 159-172):
`period=300`, `start_time = now - lookback` minutes,
`end_time = now - (lookback - 5)` minutes, namespace `AWS/DynamoDB`,
statistic `Sum`, dimension `TableName`, unit `Count`. Here `lookback` is
the value of the local variable `lookback_window_start` at that point,
i.e. after any clamping. -/
def tableMetricQuery (now : ℤ) (table_name : String) (lookback : ℤ)
    (metric_name : String) : MetricQuery :=
  { period := 300
    start_time := now - lookback
    end_time := now - (lookback - 5)
    metric_name := metric_name
    nspace := "AWS/DynamoDB"
    statistics := ["Sum"]
    dimensions := [("TableName", table_name)]
    unit := "Count" }

/-- The query built by `__get_aws_metric` in gsi.py (lines 174-190): same
shape as the table query but with the extra `GlobalSecondaryIndexName`
dimension, and no clamping of the lookback. -/
def gsiMetricQuery (now : ℤ) (table_name gsi_name : String) (lookback : ℤ)
    (metric_name : String) : MetricQuery :=
  { period := 300
    start_time := now - lookback
    end_time := now - (lookback - 5)
    metric_name := metric_name
    nspace := "AWS/DynamoDB"
    statistics := ["Sum"]
    dimensions := [("TableName", table_name), ("GlobalSecondaryIndexName", gsi_name)]
    unit := "Count" }

/-- One (undecorated) execution of table.py `__get_aws_metric`: clamp the
lookback to a minimum of 5 minutes with a warning, issue the CloudWatch
query, and on a `BotoServerError` log an error line and re-raise. -/
def table_get_aws_metric_attempt (provider : MetricsProvider) (now : ℤ)
    (table_name : String) (lookback_window_start : ℤ) (metric_name : String) :
    Except Err (List MetricPoint) × List Event :=
  let warnEvents :=
    if lookback_window_start < 5 then [Event.warnLookbackClamped table_name] else []
  let lookback := if lookback_window_start < 5 then 5 else lookback_window_start
  let q := tableMetricQuery now table_name lookback metric_name
  match provider q with
  | Except.ok pts => (Except.ok pts, warnEvents ++ [Event.metricRequest q])
  | Except.error e => (Except.error e, warnEvents ++ [Event.metricRequest q, Event.errorLog])

/-- table.py `__get_aws_metric` as decorated: the attempt wrapped in the
retry policy (multiplier 1000 ms, cap 10000 ms, 10 attempts). -/
def table_get_aws_metric (provider : MetricsProvider) (now : ℤ)
    (table_name : String) (lookback_window_start : ℤ) (metric_name : String) :
    RunResult (List MetricPoint) :=
  retryRun
    (fun _ => table_get_aws_metric_attempt provider now table_name
      lookback_window_start metric_name)
    1000 10000 0 10

/-- One (undecorated) execution of gsi.py `__get_aws_metric`: no clamping,
issue the CloudWatch query with the GSI dimension, and on a
`BotoServerError` log an error line and re-raise. -/
def gsi_get_aws_metric_attempt (provider : MetricsProvider) (now : ℤ)
    (table_name gsi_name : String) (lookback_window_start : ℤ)
    (metric_name : String) :
    Except Err (List MetricPoint) × List Event :=
  let q := gsiMetricQuery now table_name gsi_name lookback_window_start metric_name
  match provider q with
  | Except.ok pts => (Except.ok pts, [Event.metricRequest q])
  | Except.error e => (Except.error e, [Event.metricRequest q, Event.errorLog])

/-- gsi.py `__get_aws_metric` as decorated: the attempt wrapped in the same
retry policy (multiplier 1000 ms, cap 10000 ms, 10 attempts). -/
def gsi_get_aws_metric (provider : MetricsProvider) (now : ℤ)
    (table_name gsi_name : String) (lookback_window_start : ℤ)
    (metric_name : String) : RunResult (List MetricPoint) :=
  retryRun
    (fun _ => gsi_get_aws_metric_attempt provider now table_name gsi_name
      lookback_window_start metric_name)
    1000 10000 0 10

/-- table.py lines 30-34 (and 90-94): `int(math.ceil(float(Sum) /
float(lookback_window_start * 60)))` when the result list is non-empty,
`0` otherwise. A zero divisor makes the Python float division raise
`ZeroDivisionError`. -/
def tableConsumedUnits (metrics : List MetricPoint)
    (lookback_window_start : ℤ) : Except Err ℤ :=
  match metrics with
  | [] => Except.ok 0
  | p :: _ =>
    if lookback_window_start * 60 = 0 then Except.error Err.zeroDivisionError
    else Except.ok ⌈p.sum / ((lookback_window_start * 60 : ℤ) : ℚ)⌉

/-- gsi.py lines 36-40 (and 105-109): `int(math.ceil(float(Sum) /
float(300)))` when the result list is non-empty, `0` otherwise. The
divisor is the fixed constant 300, never zero. -/
def gsiConsumedUnits (metrics : List MetricPoint) : Except Err ℤ :=
  match metrics with
  | [] => Except.ok 0
  | p :: _ => Except.ok ⌈p.sum / (300 : ℚ)⌉

/-- The percentage step shared by all four consumed-percent functions:
`int(math.ceil(float(consumed) / float(provisioned) * 100))`, where the
provisioned-capacity lookup may itself fail (the failure re-raises), and a
zero provisioned value makes the float division raise
`ZeroDivisionError`. -/
def consumedPercent (consumed : ℤ) (capResult : Except Err ℤ) : Except Err ℤ :=
  match capResult with
  | Except.error e => Except.error e
  | Except.ok prov =>
    if prov = 0 then Except.error Err.zeroDivisionError
    else Except.ok ⌈(consumed : ℚ) / (prov : ℚ) * 100⌉

namespace TableStats

/-- table.py `get_consumed_read_units_percent` (lines 15-47): fetch the
`ConsumedReadCapacityUnits` sum, normalize by `lookback_window_start*60`
seconds (0 on an empty result), then divide by the provisioned table read
units fetched from `dynamodb`, ceiling times 100, logging the result. -/
def get_consumed_read_units_percent (provider : MetricsProvider)
    (readCap : String → Except Err ℤ) (now : ℤ) (table_name : String)
    (lookback_window_start : ℤ) : Except Err ℤ × List Event :=
  let fetch := table_get_aws_metric provider now table_name
    lookback_window_start "ConsumedReadCapacityUnits"
  match fetch.result with
  | Except.error e => (Except.error e, fetch.events)
  | Except.ok metrics =>
    match tableConsumedUnits metrics lookback_window_start with
    | Except.error e => (Except.error e, fetch.events)
    | Except.ok consumed_read_units =>
      let evs := fetch.events ++ [Event.capacityRequest table_name none true]
      match consumedPercent consumed_read_units (readCap table_name) with
      | Except.error e => (Except.error e, evs)
      | Except.ok p => (Except.ok p, evs ++ [Event.infoLog])

/-- table.py `get_consumed_write_units_percent` (lines 75-107): same
pipeline as the read variant, over `ConsumedWriteCapacityUnits` and the
provisioned table write units. -/
def get_consumed_write_units_percent (provider : MetricsProvider)
    (writeCap : String → Except Err ℤ) (now : ℤ) (table_name : String)
    (lookback_window_start : ℤ) : Except Err ℤ × List Event :=
  let fetch := table_get_aws_metric provider now table_name
    lookback_window_start "ConsumedWriteCapacityUnits"
  match fetch.result with
  | Except.error e => (Except.error e, fetch.events)
  | Except.ok metrics =>
    match tableConsumedUnits metrics lookback_window_start with
    | Except.error e => (Except.error e, fetch.events)
    | Except.ok consumed_write_units =>
      let evs := fetch.events ++ [Event.capacityRequest table_name none false]
      match consumedPercent consumed_write_units (writeCap table_name) with
      | Except.error e => (Except.error e, evs)
      | Except.ok p => (Except.ok p, evs ++ [Event.infoLog])

/-- table.py `get_throttled_read_event_count` (lines 50-72): fetch the
`ReadThrottleEvents` sum and return `int(Sum)` (0 on an empty result);
no capacity lookup is involved. -/
def get_throttled_read_event_count (provider : MetricsProvider) (now : ℤ)
    (table_name : String) (lookback_window_start : ℤ) :
    Except Err ℤ × List Event :=
  let fetch := table_get_aws_metric provider now table_name
    lookback_window_start "ReadThrottleEvents"
  match fetch.result with
  | Except.error e => (Except.error e, fetch.events)
  | Except.ok metrics =>
    match metrics with
    | [] => (Except.ok 0, fetch.events ++ [Event.infoLog])
    | p :: _ => (Except.ok (pyInt p.sum), fetch.events ++ [Event.infoLog])

/-- table.py `get_throttled_write_event_count` (lines 110-132): fetch the
`WriteThrottleEvents` sum and return `int(Sum)` (0 on an empty result);
no capacity lookup is involved. -/
def get_throttled_write_event_count (provider : MetricsProvider) (now : ℤ)
    (table_name : String) (lookback_window_start : ℤ) :
    Except Err ℤ × List Event :=
  let fetch := table_get_aws_metric provider now table_name
    lookback_window_start "WriteThrottleEvents"
  match fetch.result with
  | Except.error e => (Except.error e, fetch.events)
  | Except.ok metrics =>
    match metrics with
    | [] => (Except.ok 0, fetch.events ++ [Event.infoLog])
    | p :: _ => (Except.ok (pyInt p.sum), fetch.events ++ [Event.infoLog])

end TableStats

namespace GsiStats

/-- gsi.py `get_consumed_read_units_percent` (lines 15-53): fetch the
`ConsumedReadCapacityUnits` sum for the GSI, normalize by the fixed 300
seconds (0 on an empty result), then divide by the provisioned GSI read
units, ceiling times 100, logging the result. -/
def get_consumed_read_units_percent (provider : MetricsProvider)
    (readCap : String → String → Except Err ℤ) (now : ℤ)
    (table_name gsi_name : String) (lookback_window_start : ℤ) :
    Except Err ℤ × List Event :=
  let fetch := gsi_get_aws_metric provider now table_name gsi_name
    lookback_window_start "ConsumedReadCapacityUnits"
  match fetch.result with
  | Except.error e => (Except.error e, fetch.events)
  | Except.ok metrics =>
    match gsiConsumedUnits metrics with
    | Except.error e => (Except.error e, fetch.events)
    | Except.ok consumed_read_units =>
      let evs := fetch.events ++ [Event.capacityRequest table_name (some gsi_name) true]
      match consumedPercent consumed_read_units (readCap table_name gsi_name) with
      | Except.error e => (Except.error e, evs)
      | Except.ok p => (Except.ok p, evs ++ [Event.infoLog])

/-- gsi.py `get_consumed_write_units_percent` (lines 84-122): same pipeline
as the read variant, over `ConsumedWriteCapacityUnits` and the provisioned
GSI write units. -/
def get_consumed_write_units_percent (provider : MetricsProvider)
    (writeCap : String → String → Except Err ℤ) (now : ℤ)
    (table_name gsi_name : String) (lookback_window_start : ℤ) :
    Except Err ℤ × List Event :=
  let fetch := gsi_get_aws_metric provider now table_name gsi_name
    lookback_window_start "ConsumedWriteCapacityUnits"
  match fetch.result with
  | Except.error e => (Except.error e, fetch.events)
  | Except.ok metrics =>
    match gsiConsumedUnits metrics with
    | Except.error e => (Except.error e, fetch.events)
    | Except.ok consumed_write_units =>
      let evs := fetch.events ++ [Event.capacityRequest table_name (some gsi_name) false]
      match consumedPercent consumed_write_units (writeCap table_name gsi_name) with
      | Except.error e => (Except.error e, evs)
      | Except.ok p => (Except.ok p, evs ++ [Event.infoLog])

/-- gsi.py `get_throttled_read_event_count` (lines 56-81): fetch the
`ReadThrottleEvents` sum for the GSI and return `int(Sum)` (0 on an empty
result); no capacity lookup is involved. -/
def get_throttled_read_event_count (provider : MetricsProvider) (now : ℤ)
    (table_name gsi_name : String) (lookback_window_start : ℤ) :
    Except Err ℤ × List Event :=
  let fetch := gsi_get_aws_metric provider now table_name gsi_name
    lookback_window_start "ReadThrottleEvents"
  match fetch.result with
  | Except.error e => (Except.error e, fetch.events)
  | Except.ok metrics =>
    match metrics with
    | [] => (Except.ok 0, fetch.events ++ [Event.infoLog])
    | p :: _ => (Except.ok (pyInt p.sum), fetch.events ++ [Event.infoLog])

/-- gsi.py `get_throttled_write_event_count` (lines 125-150): fetch the
`WriteThrottleEvents` sum for the GSI and return `int(Sum)` (0 on an empty
result); no capacity lookup is involved. -/
def get_throttled_write_event_count (provider : MetricsProvider) (now : ℤ)
    (table_name gsi_name : String) (lookback_window_start : ℤ) :
    Except Err ℤ × List Event :=
  let fetch := gsi_get_aws_metric provider now table_name gsi_name
    lookback_window_start "WriteThrottleEvents"
  match fetch.result with
  | Except.error e => (Except.error e, fetch.events)
  | Except.ok metrics =>
    match metrics with
    | [] => (Except.ok 0, fetch.events ++ [Event.infoLog])
    | p :: _ => (Except.ok (pyInt p.sum), fetch.events ++ [Event.infoLog])

end GsiStats

/-! Helper lemmas shared by the claim theorems. -/

/-- With a provider that always succeeds, the retried table fetch returns
its data after the first attempt. -/
lemma table_fetch_ok_result (pts : List MetricPoint) (now : ℤ)
    (table_name : String) (lookback_window_start : ℤ) (metric_name : String) :
    (table_get_aws_metric (fun _ => Except.ok pts) now table_name
      lookback_window_start metric_name).result = Except.ok pts := rfl

/-- With a provider that always succeeds, the retried table fetch's trace is
the single attempt's trace. -/
lemma table_fetch_ok_events (pts : List MetricPoint) (now : ℤ)
    (table_name : String) (lookback_window_start : ℤ) (metric_name : String) :
    (table_get_aws_metric (fun _ => Except.ok pts) now table_name
        lookback_window_start metric_name).events
      = (table_get_aws_metric_attempt (fun _ => Except.ok pts) now table_name
        lookback_window_start metric_name).2 := rfl

/-- With a provider that always succeeds, the retried GSI fetch returns its
data after the first attempt. -/
lemma gsi_fetch_ok_result (pts : List MetricPoint) (now : ℤ)
    (table_name gsi_name : String) (lookback_window_start : ℤ)
    (metric_name : String) :
    (gsi_get_aws_metric (fun _ => Except.ok pts) now table_name gsi_name
      lookback_window_start metric_name).result = Except.ok pts := rfl

/-- With a provider that always succeeds, the retried GSI fetch's trace is
the single attempt's trace. -/
lemma gsi_fetch_ok_events (pts : List MetricPoint) (now : ℤ)
    (table_name gsi_name : String) (lookback_window_start : ℤ)
    (metric_name : String) :
    (gsi_get_aws_metric (fun _ => Except.ok pts) now table_name gsi_name
        lookback_window_start metric_name).events
      = [Event.metricRequest (gsiMetricQuery now table_name gsi_name
          lookback_window_start metric_name)] := rfl

/-- Every event in the trace of a retried constant call already occurs in
the trace of the single attempt. -/
lemma retryRun_const_mem {α : Type} (c : Except Err α × List Event)
    (multiplier maxWait : ℕ) :
    ∀ r i ev, ev ∈ (retryRun (fun _ => c) multiplier maxWait i r).events →
      ev ∈ c.2 := by
  rcases c with ⟨res, evs⟩
  rcases res with e | a
  · intro r
    induction r with
    | zero =>
      intro i ev h
      simp [retryRun] at h
    | succ r ih =>
      intro i ev h
      cases r with
      | zero => simpa [retryRun] using h
      | succ r' =>
        rw [retryRun] at h
        simp at h
        rcases h with h1 | h2
        · exact h1
        · exact ih (i + 1) ev h2
  · intro r i ev h
    cases r with
    | zero => simp [retryRun] at h
    | succ r => simpa [retryRun] using h

/-- C1: for every metric sum S ≥ 0 and every provisioned capacity P > 0
(and positive lookback L), the whole-resource consumed-units percent
functions of table.py return exactly
`ceil(ceil(S / (L*60)) / P * 100)` as an integer. -/
theorem table_consumed_percent_exact_ceiling (S : ℚ) (P L now : ℤ)
    (table_name : String) (hS : 0 ≤ S) (hP : 0 < P) (hL : 0 < L) :
    (TableStats.get_consumed_read_units_percent (fun _ => Except.ok [⟨S⟩])
        (fun _ => Except.ok P) now table_name L).1
      = Except.ok ⌈(⌈S / ((L * 60 : ℤ) : ℚ)⌉ : ℚ) / (P : ℚ) * 100⌉ ∧
    (TableStats.get_consumed_write_units_percent (fun _ => Except.ok [⟨S⟩])
        (fun _ => Except.ok P) now table_name L).1
      = Except.ok ⌈(⌈S / ((L * 60 : ℤ) : ℚ)⌉ : ℚ) / (P : ℚ) * 100⌉ := by
  have h60 : (L * 60 : ℤ) ≠ 0 := by omega
  have hP0 : (P : ℤ) ≠ 0 := by omega
  constructor
  · simp [TableStats.get_consumed_read_units_percent, tableConsumedUnits,
      consumedPercent, table_fetch_ok_result, h60, hP0]
  · simp [TableStats.get_consumed_write_units_percent, tableConsumedUnits,
      consumedPercent, table_fetch_ok_result, h60, hP0]

/-- Witness for C1: the spec's two boundary examples. Sum 4500 over a
15-minute lookback with 20 provisioned units yields 25 percent, and
Sum 1 over the same lookback with 100 provisioned units yields 1. -/
theorem table_consumed_percent_exact_ceiling_witness :
    (TableStats.get_consumed_read_units_percent (fun _ => Except.ok [⟨4500⟩])
        (fun _ => Except.ok 20) 0 "orders" 15).1 = Except.ok 25 ∧
    (TableStats.get_consumed_read_units_percent (fun _ => Except.ok [⟨1⟩])
        (fun _ => Except.ok 100) 0 "orders" 15).1 = Except.ok 1 := by
  constructor
  · have h := (table_consumed_percent_exact_ceiling 4500 20 15 0 "orders"
      (by norm_num) (by norm_num) (by norm_num)).1
    rw [h]
    norm_num
  · have h := (table_consumed_percent_exact_ceiling 1 100 15 0 "orders"
      (by norm_num) (by norm_num) (by norm_num)).1
    rw [h]
    have hc : (⌈(1 : ℚ) / ((15 * 60 : ℤ) : ℚ)⌉ : ℤ) = 1 := by
      rw [Int.ceil_eq_iff] <;> norm_num
    rw [hc]
    norm_num

/-- C2: with lookback ≥ 5 and provisioned capacity P > 0, if the metrics
provider returns an empty result set (NoData), both whole-resource
consumed-percent functions return 0, whatever P is. -/
theorem table_nodata_percent_zero (P L now : ℤ) (table_name : String)
    (hL : 5 ≤ L) (hP : 0 < P) :
    (TableStats.get_consumed_read_units_percent (fun _ => Except.ok [])
        (fun _ => Except.ok P) now table_name L).1 = Except.ok 0 ∧
    (TableStats.get_consumed_write_units_percent (fun _ => Except.ok [])
        (fun _ => Except.ok P) now table_name L).1 = Except.ok 0 := by
  have hP0 : (P : ℤ) ≠ 0 := by omega
  constructor
  · simp [TableStats.get_consumed_read_units_percent, tableConsumedUnits,
      consumedPercent, table_fetch_ok_result, hP0]
  · simp [TableStats.get_consumed_write_units_percent, tableConsumedUnits,
      consumedPercent, table_fetch_ok_result, hP0]

/-- Witness for C2: NoData with 12345 provisioned read units and a
15-minute lookback yields 0 percent. -/
theorem table_nodata_percent_zero_witness :
    (TableStats.get_consumed_read_units_percent (fun _ => Except.ok [])
        (fun _ => Except.ok 12345) 0 "orders" 15).1 = Except.ok 0 :=
  (table_nodata_percent_zero 12345 15 0 "orders" (by norm_num) (by norm_num)).1

/-- C3: the throttle-count operations of table.py and gsi.py return the
remote Sum unmodified as an integer (an integral Sum n comes back exactly
as n), return 0 on NoData, and issue no provisioned-capacity request. -/
theorem throttle_counts_passthrough (n : ℕ) (now L : ℤ)
    (table_name gsi_name : String) :
    (TableStats.get_throttled_read_event_count (fun _ => Except.ok [⟨(n : ℚ)⟩])
      now table_name L).1 = Except.ok (n : ℤ) ∧
    (TableStats.get_throttled_write_event_count (fun _ => Except.ok [⟨(n : ℚ)⟩])
      now table_name L).1 = Except.ok (n : ℤ) ∧
    (GsiStats.get_throttled_read_event_count (fun _ => Except.ok [⟨(n : ℚ)⟩])
      now table_name gsi_name L).1 = Except.ok (n : ℤ) ∧
    (GsiStats.get_throttled_write_event_count (fun _ => Except.ok [⟨(n : ℚ)⟩])
      now table_name gsi_name L).1 = Except.ok (n : ℤ) ∧
    (TableStats.get_throttled_read_event_count (fun _ => Except.ok [])
      now table_name L).1 = Except.ok 0 ∧
    (TableStats.get_throttled_write_event_count (fun _ => Except.ok [])
      now table_name L).1 = Except.ok 0 ∧
    (GsiStats.get_throttled_read_event_count (fun _ => Except.ok [])
      now table_name gsi_name L).1 = Except.ok 0 ∧
    (GsiStats.get_throttled_write_event_count (fun _ => Except.ok [])
      now table_name gsi_name L).1 = Except.ok 0 ∧
    (∀ a b c, Event.capacityRequest a b c ∉
      (TableStats.get_throttled_read_event_count (fun _ => Except.ok [⟨(n : ℚ)⟩])
        now table_name L).2) ∧
    (∀ a b c, Event.capacityRequest a b c ∉
      (GsiStats.get_throttled_write_event_count (fun _ => Except.ok [⟨(n : ℚ)⟩])
        now table_name gsi_name L).2) := by
  have hn : ¬ ((n : ℚ) < 0) := not_lt.2 (Nat.cast_nonneg n)
  refine ⟨?_, ?_, ?_, ?_, rfl, rfl, rfl, rfl, ?_, ?_⟩
  · simp [TableStats.get_throttled_read_event_count, table_fetch_ok_result,
      pyInt, hn, Int.floor_natCast]
  · simp [TableStats.get_throttled_write_event_count, table_fetch_ok_result,
      pyInt, hn, Int.floor_natCast]
  · simp [GsiStats.get_throttled_read_event_count, gsi_fetch_ok_result,
      pyInt, hn, Int.floor_natCast]
  · simp [GsiStats.get_throttled_write_event_count, gsi_fetch_ok_result,
      pyInt, hn, Int.floor_natCast]
  · intro a b c
    by_cases hl : L < 5
    · simp [TableStats.get_throttled_read_event_count, table_fetch_ok_result,
        table_fetch_ok_events, table_get_aws_metric_attempt, hl]
    · simp [TableStats.get_throttled_read_event_count, table_fetch_ok_result,
        table_fetch_ok_events, table_get_aws_metric_attempt, hl]
  · intro a b c
    simp [GsiStats.get_throttled_write_event_count, gsi_fetch_ok_result,
      gsi_fetch_ok_events]

/-- Witness for C3: Sum 7 comes back as exactly 7, and NoData as 0. -/
theorem throttle_counts_passthrough_witness :
    (TableStats.get_throttled_read_event_count
        (fun _ => Except.ok [⟨((7 : ℕ) : ℚ)⟩]) 0 "orders" 15).1
      = Except.ok ((7 : ℕ) : ℤ) ∧
    (GsiStats.get_throttled_write_event_count (fun _ => Except.ok [])
      0 "orders" "idx" 15).1 = Except.ok 0 := by
  have h := throttle_counts_passthrough 7 0 15 "orders" "idx"
  exact ⟨h.1, h.2.2.2.2.2.2.2.1⟩

/-- C4: with lookback below 5 minutes, the whole-resource fetch clamps the
query lookback up to 5 and emits a warning, while the GSI fetch applies no
clamp: its query is positioned by the unmodified lookback and no warning
ever appears in its trace. -/
theorem lookback_clamp_asymmetry (now L : ℤ)
    (table_name gsi_name metric_name : String) (pts : List MetricPoint)
    (hL : L < 5) :
    (table_get_aws_metric (fun _ => Except.ok pts) now table_name L
        metric_name).events
      = [Event.warnLookbackClamped table_name,
         Event.metricRequest (tableMetricQuery now table_name 5 metric_name)] ∧
    (gsi_get_aws_metric (fun _ => Except.ok pts) now table_name gsi_name L
        metric_name).events
      = [Event.metricRequest
          (gsiMetricQuery now table_name gsi_name L metric_name)] ∧
    (∀ t, Event.warnLookbackClamped t ∉
      (gsi_get_aws_metric (fun _ => Except.ok pts) now table_name gsi_name L
        metric_name).events) := by
  refine ⟨?_, gsi_fetch_ok_events pts now table_name gsi_name L metric_name, ?_⟩
  · rw [table_fetch_ok_events]
    simp [table_get_aws_metric_attempt, hL]
  · intro t
    rw [gsi_fetch_ok_events]
    simp

/-- Witness for C4: lookback 3 on the table fetch queries the window
clamped to 5 and warns; the GSI fetch with lookback 3 queries the
unmodified window with no warning. -/
theorem lookback_clamp_asymmetry_witness :
    (table_get_aws_metric (fun _ => Except.ok []) 0 "orders" 3
        "ConsumedReadCapacityUnits").events
      = [Event.warnLookbackClamped "orders",
         Event.metricRequest (tableMetricQuery 0 "orders" 5
           "ConsumedReadCapacityUnits")] ∧
    (gsi_get_aws_metric (fun _ => Except.ok []) 0 "orders" "idx" 3
        "ConsumedReadCapacityUnits").events
      = [Event.metricRequest (gsiMetricQuery 0 "orders" "idx" 3
          "ConsumedReadCapacityUnits")] := by
  have h := lookback_clamp_asymmetry 0 3 "orders" "idx"
    "ConsumedReadCapacityUnits" [] (by norm_num)
  exact ⟨h.1, h.2.1⟩

/-- C5: the GSI consumed-percent functions normalize by the fixed 300
second bucket whatever the lookback argument is, while the whole-resource
functions normalize by lookback*60 seconds. -/
theorem gsi_fixed_300_divisor (S : ℚ) (P L now : ℤ)
    (table_name gsi_name : String) (hS : 0 ≤ S) (hP : 0 < P) :
    (GsiStats.get_consumed_read_units_percent (fun _ => Except.ok [⟨S⟩])
        (fun _ _ => Except.ok P) now table_name gsi_name L).1
      = Except.ok ⌈(⌈S / (300 : ℚ)⌉ : ℚ) / (P : ℚ) * 100⌉ ∧
    (GsiStats.get_consumed_write_units_percent (fun _ => Except.ok [⟨S⟩])
        (fun _ _ => Except.ok P) now table_name gsi_name L).1
      = Except.ok ⌈(⌈S / (300 : ℚ)⌉ : ℚ) / (P : ℚ) * 100⌉ ∧
    (L ≠ 0 →
      (TableStats.get_consumed_read_units_percent (fun _ => Except.ok [⟨S⟩])
          (fun _ => Except.ok P) now table_name L).1
        = Except.ok ⌈(⌈S / ((L * 60 : ℤ) : ℚ)⌉ : ℚ) / (P : ℚ) * 100⌉) := by
  have hP0 : (P : ℤ) ≠ 0 := by omega
  refine ⟨?_, ?_, fun hL0 => ?_⟩
  · simp [GsiStats.get_consumed_read_units_percent, gsiConsumedUnits,
      consumedPercent, gsi_fetch_ok_result, hP0]
  · simp [GsiStats.get_consumed_write_units_percent, gsiConsumedUnits,
      consumedPercent, gsi_fetch_ok_result, hP0]
  · have h60 : (L * 60 : ℤ) ≠ 0 := by omega
    simp [TableStats.get_consumed_read_units_percent, tableConsumedUnits,
      consumedPercent, table_fetch_ok_result, h60, hP0]

/-- Witness for C5: Sum 4500 on a GSI gives 75 percent of 20 provisioned
units under lookback 7 and under lookback 100 alike (4500/300 = 15,
15/20*100 = 75). -/
theorem gsi_fixed_300_divisor_witness :
    (GsiStats.get_consumed_read_units_percent (fun _ => Except.ok [⟨4500⟩])
        (fun _ _ => Except.ok 20) 0 "orders" "idx" 7).1 = Except.ok 75 ∧
    (GsiStats.get_consumed_read_units_percent (fun _ => Except.ok [⟨4500⟩])
        (fun _ _ => Except.ok 20) 0 "orders" "idx" 100).1 = Except.ok 75 := by
  constructor
  · have h := (gsi_fixed_300_divisor 4500 20 7 0 "orders" "idx"
      (by norm_num) (by norm_num)).1
    rw [h]
    norm_num
  · have h := (gsi_fixed_300_divisor 4500 20 100 0 "orders" "idx"
      (by norm_num) (by norm_num)).1
    rw [h]
    norm_num

/-- C6: every issued query has windowStart = now - lookback and
windowEnd = now - (lookback - 5) with period 300, so the bucket width is
exactly 5 minutes for every lookback value; the GSI fetch uses the
argument lookback always, the table fetch uses it whenever it is at least
5 (below that C4's clamp raises it to 5, leaving the width at 5). -/
theorem metric_window_shape (now L : ℤ)
    (table_name gsi_name metric_name : String) (pts : List MetricPoint) :
    (gsiMetricQuery now table_name gsi_name L metric_name).start_time
      = now - L ∧
    (gsiMetricQuery now table_name gsi_name L metric_name).end_time
      = now - (L - 5) ∧
    (gsiMetricQuery now table_name gsi_name L metric_name).end_time
      - (gsiMetricQuery now table_name gsi_name L metric_name).start_time
      = 5 ∧
    (gsiMetricQuery now table_name gsi_name L metric_name).period = 300 ∧
    (tableMetricQuery now table_name L metric_name).start_time = now - L ∧
    (tableMetricQuery now table_name L metric_name).end_time
      = now - (L - 5) ∧
    (tableMetricQuery now table_name L metric_name).end_time
      - (tableMetricQuery now table_name L metric_name).start_time = 5 ∧
    (tableMetricQuery now table_name L metric_name).period = 300 ∧
    (gsi_get_aws_metric (fun _ => Except.ok pts) now table_name gsi_name L
        metric_name).events
      = [Event.metricRequest
          (gsiMetricQuery now table_name gsi_name L metric_name)] ∧
    (5 ≤ L →
      (table_get_aws_metric (fun _ => Except.ok pts) now table_name L
          metric_name).events
        = [Event.metricRequest (tableMetricQuery now table_name L
            metric_name)]) := by
  refine ⟨rfl, rfl, ?_, rfl, rfl, rfl, ?_, rfl,
    gsi_fetch_ok_events pts now table_name gsi_name L metric_name,
    fun h5 => ?_⟩
  · simp [gsiMetricQuery]
  · simp [tableMetricQuery]
  · rw [table_fetch_ok_events]
    simp [table_get_aws_metric_attempt, not_lt.2 h5]

/-- Witness for C6: the table fetch at lookback 15 queries the window
from now-15 to now-10 with period 300. -/
theorem metric_window_shape_witness :
    (table_get_aws_metric (fun _ => Except.ok []) 0 "orders" 15
        "ConsumedReadCapacityUnits").events
      = [Event.metricRequest (tableMetricQuery 0 "orders" 15
          "ConsumedReadCapacityUnits")] ∧
    (tableMetricQuery 0 "orders" 15 "ConsumedReadCapacityUnits").start_time
      = 0 - 15 ∧
    (tableMetricQuery 0 "orders" 15 "ConsumedReadCapacityUnits").end_time
      = 0 - (15 - 5) := by
  have h := metric_window_shape 0 15 "orders" "idx"
    "ConsumedReadCapacityUnits" []
  exact ⟨h.2.2.2.2.2.2.2.2.2 (by norm_num), h.2.2.2.2.1, h.2.2.2.2.2.1⟩

/-- C7: against a provider that fails on every attempt, both metric
fetchers make exactly 10 attempts, sleeping between attempts 1000, 2000,
4000, 8000 ms and then 10000 ms (the cap) per wait, and finally propagate
the failure with no result. -/
theorem retry_exhaustion_ten_attempts (e : Err) (now L : ℤ)
    (table_name gsi_name metric_name : String) :
    (table_get_aws_metric (fun _ => Except.error e) now table_name L
      metric_name).result = Except.error e ∧
    (table_get_aws_metric (fun _ => Except.error e) now table_name L
      metric_name).attempts = 10 ∧
    (table_get_aws_metric (fun _ => Except.error e) now table_name L
        metric_name).sleeps
      = [1000, 2000, 4000, 8000, 10000, 10000, 10000, 10000, 10000] ∧
    (gsi_get_aws_metric (fun _ => Except.error e) now table_name gsi_name L
      metric_name).result = Except.error e ∧
    (gsi_get_aws_metric (fun _ => Except.error e) now table_name gsi_name L
      metric_name).attempts = 10 ∧
    (gsi_get_aws_metric (fun _ => Except.error e) now table_name gsi_name L
        metric_name).sleeps
      = [1000, 2000, 4000, 8000, 10000, 10000, 10000, 10000, 10000] ∧
    (∀ s ∈ (table_get_aws_metric (fun _ => Except.error e) now table_name L
      metric_name).sleeps, s ≤ 10000) ∧
    List.Chain' (· ≤ ·) (table_get_aws_metric (fun _ => Except.error e) now
      table_name L metric_name).sleeps := by
  have hs : (table_get_aws_metric (fun _ => Except.error e) now table_name L
      metric_name).sleeps
      = [1000, 2000, 4000, 8000, 10000, 10000, 10000, 10000, 10000] := rfl
  refine ⟨rfl, rfl, hs, rfl, rfl, rfl, ?_, ?_⟩
  · rw [hs]
    decide
  · rw [hs]
    norm_num [List.chain'_cons]

/-- Witness for C7: a provider that always fails with BotoServerError
causes 10 attempts with the capped doubling backoff and a propagated
error. -/
theorem retry_exhaustion_ten_attempts_witness :
    (table_get_aws_metric (fun _ => Except.error Err.botoServerError) 0
      "orders" 15 "ConsumedReadCapacityUnits").result
      = Except.error Err.botoServerError ∧
    (table_get_aws_metric (fun _ => Except.error Err.botoServerError) 0
      "orders" 15 "ConsumedReadCapacityUnits").attempts = 10 ∧
    (table_get_aws_metric (fun _ => Except.error Err.botoServerError) 0
        "orders" 15 "ConsumedReadCapacityUnits").sleeps
      = [1000, 2000, 4000, 8000, 10000, 10000, 10000, 10000, 10000] := by
  have h := retry_exhaustion_ten_attempts Err.botoServerError 0 15 "orders"
    "idx" "ConsumedReadCapacityUnits"
  exact ⟨h.1, h.2.1, h.2.2.1⟩

/-- C8: the provisioned-capacity lookup is issued only after the metric
sample is obtained - when the metric fetch fails, the error propagates and
no capacity request appears in the trace - and an error from the capacity
lookup itself propagates unchanged, with the trace showing the single
capacity request strictly after the metric request. -/
theorem capacity_lookup_ordering_and_error_propagation (e : Err) (S : ℚ)
    (L now : ℤ) (table_name gsi_name : String)
    (cap : String → Except Err ℤ) (gcap : String → String → Except Err ℤ)
    (hL : 5 ≤ L) :
    (TableStats.get_consumed_read_units_percent (fun _ => Except.error e)
      cap now table_name L).1 = Except.error e ∧
    (∀ a b c, Event.capacityRequest a b c ∉
      (TableStats.get_consumed_read_units_percent (fun _ => Except.error e)
        cap now table_name L).2) ∧
    (GsiStats.get_consumed_read_units_percent (fun _ => Except.error e)
      gcap now table_name gsi_name L).1 = Except.error e ∧
    (∀ a b c, Event.capacityRequest a b c ∉
      (GsiStats.get_consumed_read_units_percent (fun _ => Except.error e)
        gcap now table_name gsi_name L).2) ∧
    (TableStats.get_consumed_read_units_percent (fun _ => Except.ok [⟨S⟩])
      (fun _ => Except.error e) now table_name L).1 = Except.error e ∧
    (TableStats.get_consumed_read_units_percent (fun _ => Except.ok [⟨S⟩])
        (fun _ => Except.error e) now table_name L).2
      = [Event.metricRequest (tableMetricQuery now table_name L
          "ConsumedReadCapacityUnits"),
         Event.capacityRequest table_name none true] ∧
    (GsiStats.get_consumed_read_units_percent (fun _ => Except.ok [⟨S⟩])
      (fun _ _ => Except.error e) now table_name gsi_name L).1
      = Except.error e ∧
    (GsiStats.get_consumed_read_units_percent (fun _ => Except.ok [⟨S⟩])
        (fun _ _ => Except.error e) now table_name gsi_name L).2
      = [Event.metricRequest (gsiMetricQuery now table_name gsi_name L
          "ConsumedReadCapacityUnits"),
         Event.capacityRequest table_name (some gsi_name) true] := by
  have h60 : (L * 60 : ℤ) ≠ 0 := by omega
  have hl5 : ¬ (L < 5) := by omega
  refine ⟨rfl, ?_, rfl, ?_, ?_, ?_, ?_, ?_⟩
  · intro a b c h
    have hmem := retryRun_const_mem
      (table_get_aws_metric_attempt (fun _ => Except.error e) now table_name
        L "ConsumedReadCapacityUnits") 1000 10000 10 0
      (Event.capacityRequest a b c) h
    simp [table_get_aws_metric_attempt, hl5] at hmem
  · intro a b c h
    have hmem := retryRun_const_mem
      (gsi_get_aws_metric_attempt (fun _ => Except.error e) now table_name
        gsi_name L "ConsumedReadCapacityUnits") 1000 10000 10 0
      (Event.capacityRequest a b c) h
    simp [gsi_get_aws_metric_attempt] at hmem
  · simp [TableStats.get_consumed_read_units_percent, tableConsumedUnits,
      consumedPercent, table_fetch_ok_result, h60]
  · simp [TableStats.get_consumed_read_units_percent, tableConsumedUnits,
      consumedPercent, table_fetch_ok_result, table_fetch_ok_events,
      table_get_aws_metric_attempt, h60, hl5]
  · simp [GsiStats.get_consumed_read_units_percent, gsiConsumedUnits,
      consumedPercent, gsi_fetch_ok_result]
  · simp [GsiStats.get_consumed_read_units_percent, gsiConsumedUnits,
      consumedPercent, gsi_fetch_ok_result, gsi_fetch_ok_events]

/-- Witness for C8: with Sum 4500 available and a capacity lookup that
fails with JSONResponseError at lookback 15, the table read-percent call
propagates exactly that error. -/
theorem capacity_lookup_ordering_witness :
    (TableStats.get_consumed_read_units_percent
        (fun _ => Except.ok [⟨(4500 : ℚ)⟩])
        (fun _ => Except.error Err.jsonResponseError) 0 "orders" 15).1
      = Except.error Err.jsonResponseError ∧
    (∀ a b c, Event.capacityRequest a b c ∉
      (TableStats.get_consumed_read_units_percent
        (fun _ => Except.error Err.botoServerError)
        (fun _ => Except.ok 20) 0 "orders" 15).2) := by
  have h := capacity_lookup_ordering_and_error_propagation
    Err.jsonResponseError 4500 15 0 "orders" "idx"
    (fun _ => Except.ok 20) (fun _ _ => Except.ok 20) (by norm_num)
  have hb := capacity_lookup_ordering_and_error_propagation
    Err.botoServerError 4500 15 0 "orders" "idx"
    (fun _ => Except.ok 20) (fun _ _ => Except.ok 20) (by norm_num)
  exact ⟨h.2.2.2.2.1, hb.2.1⟩

/-- C9: every exported operation is a deterministic function of its
arguments and the external responses: two calls whose providers answer
identically on every request produce identical results (and traces). -/
theorem exported_ops_deterministic (p1 p2 : MetricsProvider)
    (c1 c2 : String → Except Err ℤ)
    (g1 g2 : String → String → Except Err ℤ) (now L : ℤ)
    (table_name gsi_name : String)
    (hp : ∀ q, p1 q = p2 q) (hc : ∀ t, c1 t = c2 t)
    (hg : ∀ t g, g1 t g = g2 t g) :
    TableStats.get_consumed_read_units_percent p1 c1 now table_name L
      = TableStats.get_consumed_read_units_percent p2 c2 now table_name L ∧
    TableStats.get_consumed_write_units_percent p1 c1 now table_name L
      = TableStats.get_consumed_write_units_percent p2 c2 now table_name L ∧
    TableStats.get_throttled_read_event_count p1 now table_name L
      = TableStats.get_throttled_read_event_count p2 now table_name L ∧
    TableStats.get_throttled_write_event_count p1 now table_name L
      = TableStats.get_throttled_write_event_count p2 now table_name L ∧
    GsiStats.get_consumed_read_units_percent p1 g1 now table_name gsi_name L
      = GsiStats.get_consumed_read_units_percent p2 g2 now table_name
          gsi_name L ∧
    GsiStats.get_consumed_write_units_percent p1 g1 now table_name gsi_name L
      = GsiStats.get_consumed_write_units_percent p2 g2 now table_name
          gsi_name L ∧
    GsiStats.get_throttled_read_event_count p1 now table_name gsi_name L
      = GsiStats.get_throttled_read_event_count p2 now table_name gsi_name L ∧
    GsiStats.get_throttled_write_event_count p1 now table_name gsi_name L
      = GsiStats.get_throttled_write_event_count p2 now table_name
          gsi_name L := by
  have hp2 : p1 = p2 := funext hp
  have hc2 : c1 = c2 := funext hc
  have hg2 : g1 = g2 := funext fun t => funext (hg t)
  subst hp2
  subst hc2
  subst hg2
  exact ⟨rfl, rfl, rfl, rfl, rfl, rfl, rfl, rfl⟩

/-- Witness for C9: two table read-percent calls against providers with
identical concrete responses agree. -/
theorem exported_ops_deterministic_witness :
    TableStats.get_consumed_read_units_percent (fun _ => Except.ok [⟨7⟩])
        (fun _ => Except.ok 5) 0 "orders" 15
      = TableStats.get_consumed_read_units_percent (fun _ => Except.ok [⟨7⟩])
        (fun _ => Except.ok 5) 0 "orders" 15 :=
  (exported_ops_deterministic (fun _ => Except.ok [⟨7⟩])
    (fun _ => Except.ok [⟨7⟩]) (fun _ => Except.ok 5) (fun _ => Except.ok 5)
    (fun _ _ => Except.ok 5) (fun _ _ => Except.ok 5) 0 15 "orders" "idx"
    (fun _ => rfl) (fun _ => rfl) (fun _ _ => rfl)).1

/-- C10: for 0 < lookback < 5 the clamp affects only the query window
inside the fetch (a local variable), not the normalization divisor: the
percent functions still divide by the unclamped lookback*60, which is
smaller than the 300-second bucket actually queried; and lookback 0 with a
non-empty metric result produces the division-by-zero arithmetic fault
instead of a value. -/
theorem clamp_is_local_divisor_unclamped (S : ℚ) (P L now : ℤ)
    (table_name : String) (h0 : 0 < L) (h5 : L < 5) (hP : 0 < P) :
    (table_get_aws_metric (fun _ => Except.ok [⟨S⟩]) now table_name L
        "ConsumedReadCapacityUnits").events
      = [Event.warnLookbackClamped table_name,
         Event.metricRequest (tableMetricQuery now table_name 5
           "ConsumedReadCapacityUnits")] ∧
    (TableStats.get_consumed_read_units_percent (fun _ => Except.ok [⟨S⟩])
        (fun _ => Except.ok P) now table_name L).1
      = Except.ok ⌈(⌈S / ((L * 60 : ℤ) : ℚ)⌉ : ℚ) / (P : ℚ) * 100⌉ ∧
    (TableStats.get_consumed_write_units_percent (fun _ => Except.ok [⟨S⟩])
        (fun _ => Except.ok P) now table_name L).1
      = Except.ok ⌈(⌈S / ((L * 60 : ℤ) : ℚ)⌉ : ℚ) / (P : ℚ) * 100⌉ ∧
    L * 60 < 300 ∧
    (TableStats.get_consumed_read_units_percent (fun _ => Except.ok [⟨S⟩])
        (fun _ => Except.ok P) now table_name 0).1
      = Except.error Err.zeroDivisionError ∧
    (TableStats.get_consumed_write_units_percent (fun _ => Except.ok [⟨S⟩])
        (fun _ => Except.ok P) now table_name 0).1
      = Except.error Err.zeroDivisionError := by
  have h60 : (L * 60 : ℤ) ≠ 0 := by omega
  have hP0 : (P : ℤ) ≠ 0 := by omega
  refine ⟨?_, ?_, ?_, by omega, ?_, ?_⟩
  · rw [table_fetch_ok_events]
    simp [table_get_aws_metric_attempt, h5]
  · simp [TableStats.get_consumed_read_units_percent, tableConsumedUnits,
      consumedPercent, table_fetch_ok_result, h60, hP0]
  · simp [TableStats.get_consumed_write_units_percent, tableConsumedUnits,
      consumedPercent, table_fetch_ok_result, h60, hP0]
  · simp [TableStats.get_consumed_read_units_percent, tableConsumedUnits,
      consumedPercent, table_fetch_ok_result]
  · simp [TableStats.get_consumed_write_units_percent, tableConsumedUnits,
      consumedPercent, table_fetch_ok_result]

/-- Witness for C10: lookback 3 with Sum 1 and 100 provisioned units
queries the clamped 5-minute window yet divides by 180 seconds
(ceil(1/180) = 1, ceil(1/100*100) = 1), and lookback 0 faults. -/
theorem clamp_is_local_divisor_unclamped_witness :
    (TableStats.get_consumed_read_units_percent (fun _ => Except.ok [⟨1⟩])
        (fun _ => Except.ok 100) 0 "orders" 3).1 = Except.ok 1 ∧
    (TableStats.get_consumed_read_units_percent (fun _ => Except.ok [⟨1⟩])
        (fun _ => Except.ok 100) 0 "orders" 0).1
      = Except.error Err.zeroDivisionError := by
  have h := clamp_is_local_divisor_unclamped 1 100 3 0 "orders"
    (by norm_num) (by norm_num) (by norm_num)
  refine ⟨?_, h.2.2.2.2.1⟩
  rw [h.2.1]
  have hc : (⌈(1 : ℚ) / ((3 * 60 : ℤ) : ℚ)⌉ : ℤ) = 1 := by
    rw [Int.ceil_eq_iff] <;> norm_num
  rw [hc]
  norm_num

end DynamicDynamodb
